import Mathlib

/-!
Shallow embedding of the SKU-Status-Checker application (src/app.py).

The file models, faithfully to the source:
  * the Python helper norm_status (app.py lines 65-73);
  * the Home Depot SerpApi result shaping hd_via_serpapi (lines 81-133);
  * the JavaScript pageFunction shipped to the Apify web scraper
    (lines 152-260): normAvailability, availabilityFromJSONLD,
    availabilityFromMicrodata, availabilityFromText, classifyPDP,
    the candidate-link collection and the candidate loop;
  * the sidebar slider configuration (line 23);
  * the per-retailer batch loops (lines 344-354 and siblings).

JavaScript regular-expression tests over alternations of literal words are
modelled as substring containment; the patterns that use a whitespace wildcard
between words are modelled by an explicit word-sequence matcher.  Statuses are
an inductive enumeration whose display strings are given by statusLabel.
-/

/-- Availability verdict enumeration; statusLabel gives the strings the
program uses for each value. -/
inductive AvailabilityStatus
  | liveAvailable
  | foundNotAvailable
  | noResults
  | errorStatus
  deriving DecidableEq, Repr

/-- Display string of each status, exactly as written in app.py. -/
def statusLabel : AvailabilityStatus → String
  | .liveAvailable => "Live / Available"
  | .foundNotAvailable => "Found but Not Available"
  | .noResults => "No Results"
  | .errorStatus => "Error"

/-- Lowercase a character list. -/
def lowerChars (cs : List Char) : List Char :=
  cs.map Char.toLower

/-- Trim whitespace from both ends of a character list, the effect of the
JavaScript String.trim and the Python str.strip on the inputs at hand. -/
def trimChars (cs : List Char) : List Char :=
  ((cs.dropWhile Char.isWhitespace).reverse.dropWhile Char.isWhitespace).reverse

/-- Occurrence test of pat at some position of a character list. -/
def containsSeq (pat : List Char) : List Char → Bool
  | [] => pat.isPrefixOf []
  | c :: cs => pat.isPrefixOf (c :: cs) || containsSeq pat cs

/-- Remove the leftmost occurrence of pat, leaving the list unchanged when
pat does not occur; for a nonempty pat this is the JavaScript
String.replace with a string pattern and empty replacement. -/
def removeFirstSub (pat : List Char) : List Char → List Char
  | [] => []
  | c :: cs =>
    if pat.isPrefixOf (c :: cs) then (c :: cs).drop pat.length
    else c :: removeFirstSub pat cs

/-- Substring containment test on strings: true when pat occurs somewhere
in s.  Models a JavaScript regex test whose pattern is a literal string. -/
def containsSubstr (s pat : String) : Bool :=
  containsSeq pat.data s.data

/-- Remove the first occurrence of pat from s, as the JavaScript
String.replace with a string pattern and empty replacement does. -/
def replaceFirst (s pat : String) : String :=
  String.mk (removeFirstSub pat.data s.data)

/-- The alternatives of the live regex in the pageFunction helper
normAvailability (app.py line 163). -/
def liveRegexAlts : List String :=
  ["instock", "in stock", "available", "add to cart", "ship to home"]

/-- The alternatives of the not-available regex in the pageFunction helper
normAvailability (app.py line 164). -/
def notAvailRegexAlts : List String :=
  ["outofstock", "out of stock", "unavailable", "discontinued",
   "temporarily unavailable"]

/-- The JavaScript helper normAvailability (app.py lines 160-166): falsy
input gives null; otherwise lowercase and trim, then test the live regex
first and the not-available regex second; each regex test is substring
containment of one of its literal alternatives. -/
def normAvailability (str : String) : Option AvailabilityStatus :=
  if str = "" then none
  else
    let v := trimChars (lowerChars str.data)
    if liveRegexAlts.any (fun p => containsSeq p.data v) then
      some .liveAvailable
    else if notAvailRegexAlts.any (fun p => containsSeq p.data v) then
      some .foundNotAvailable
    else none

/-- The live vocabulary tuple of the Python helper norm_status
(app.py line 69); membership is exact equality. -/
def liveVocab : List String :=
  ["instock", "in stock", "available", "live", "yes", "true"]

/-- The not-available vocabulary tuple of the Python helper norm_status
(app.py line 71); membership is exact equality. -/
def notAvailVocab : List String :=
  ["outofstock", "out of stock", "unavailable", "discontinued", "no", "false"]

/-- The Python helper norm_status (app.py lines 65-73): None or an empty
string give None; otherwise strip, lowercase, and compare against the two
vocabulary tuples by exact membership. -/
def norm_status (val : Option String) : Option AvailabilityStatus :=
  match val with
  | none => none
  | some s =>
    if s = "" then none
    else
      let v := String.mk (lowerChars (trimChars s.data))
      if v ∈ liveVocab then some .liveAvailable
      else if v ∈ notAvailVocab then some .foundNotAvailable
      else none

/-- An offer object inside a JSON-LD block: only its availability field is
read by the pageFunction (app.py line 181). -/
structure Offer where
  availability : Option String
  deriving DecidableEq, Repr

/-- An offers-shaped field value: the source accepts a single offer object
or an array of them (app.py line 179). -/
inductive OffersField
  | one : Offer → OffersField
  | many : List Offer → OffersField
  deriving Repr

/-- A parsed JSON-LD object: the pageFunction reads obj.offers,
obj.aggregateOffer and obj.aggregateOffers (app.py line 177); a missing or
falsy field is none. -/
structure LdObject where
  offers : Option OffersField
  aggregateOffer : Option OffersField
  aggregateOffers : Option OffersField
  deriving Repr

/-- A parsed JSON-LD document: an array of objects or a single object
(app.py line 175). -/
inductive LdData
  | one : LdObject → LdData
  | many : List LdObject → LdData
  deriving Repr

/-- A script block of type application/ld+json: none models a JSON.parse
failure, which the source catches and skips (app.py line 188). -/
abbrev LdBlock := Option LdData

/-- JavaScript short-circuit or over possibly absent field values. -/
def jsOr (a b : Option OffersField) : Option OffersField :=
  match a with
  | some x => some x
  | none => b

/-- Wrap a single offer into a list, as the source does with
Array.isArray(offers) ? offers : [offers] (app.py line 179). -/
def offersAsList : OffersField → List Offer
  | .one o => [o]
  | .many l => l

/-- Wrap a single JSON-LD object into a list, as the source does with
Array.isArray(data) ? data : [data] (app.py line 175). -/
def ldDataObjects : LdData → List LdObject
  | .one o => [o]
  | .many l => l

/-- Lowercase and strip the schema.org scheme and host, exactly as the
source does: toLowerCase, then remove the first occurrence of the https
form, then of the http form (app.py lines 182 and 198). -/
def stripSchemaHost (s : String) : String :=
  replaceFirst (replaceFirst (String.mk (lowerChars s.data)) "https://schema.org/")
    "http://schema.org/"

/-- Signal of a single offer (app.py lines 181-184): read availability,
defaulting a falsy value to the empty string, strip the schema.org host,
and normalize. -/
def offerSignal (off : Offer) : Option AvailabilityStatus :=
  let av := match off.availability with
            | none => ""
            | some s => s
  normAvailability (stripSchemaHost av)

/-- Signal of a single JSON-LD object (app.py lines 177-186): coalesce the
three offers-shaped fields, then return the first recognized signal among
the offers. -/
def objectSignal (obj : LdObject) : Option AvailabilityStatus :=
  match jsOr obj.offers (jsOr obj.aggregateOffer obj.aggregateOffers) with
  | none => none
  | some fld => (offersAsList fld).findSome? offerSignal

/-- The pageFunction helper availabilityFromJSONLD (app.py lines 169-192):
scan blocks in document order, skip malformed ones, and return the first
recognized signal. -/
def availabilityFromJSONLD (blocks : List LdBlock) : Option AvailabilityStatus :=
  blocks.findSome? (fun blk =>
    match blk with
    | none => none
    | some data => (ldDataObjects data).findSome? objectSignal)

/-- Drop leading whitespace characters, the effect of a whitespace wildcard
between two literal words in the free-text regexes. -/
def dropWs (cs : List Char) : List Char :=
  cs.dropWhile Char.isWhitespace

/-- Match a sequence of literal words separated by optional whitespace at
the head of a character list.  Because every pattern word starts with a
letter, consuming all whitespace between words is equivalent to the
zero-or-more whitespace wildcard of the source regexes. -/
def matchSeqAt : List (List Char) → List Char → Bool
  | [], _ => true
  | w :: ws, cs => w.isPrefixOf cs && matchSeqAt ws (dropWs (cs.drop w.length))

/-- Match a word-sequence pattern at some position of a character list. -/
def matchesSomewhere (ws : List (List Char)) : List Char → Bool
  | [] => matchSeqAt ws []
  | c :: cs => matchSeqAt ws (c :: cs) || matchesSomewhere ws cs

/-- Test an alternation of word-sequence patterns against a character
list. -/
def regexAnyAlt (alts : List (List String)) (cs : List Char) : Bool :=
  alts.any (fun alt => matchesSomewhere (alt.map String.toList) cs)

/-- The live alternation of availabilityFromText (app.py line 209), each
alternative a word sequence with whitespace wildcards between the words. -/
def liveTextPatterns : List (List String) :=
  [["add", "to", "cart"], ["in", "stock"], ["ship", "to", "home"]]

/-- The not-available alternation of availabilityFromText (app.py
line 210). -/
def notAvailTextPatterns : List (List String) :=
  [["out", "of", "stock"], ["unavailable"], ["discontinued"],
   ["temporarily", "unavailable"]]

/-- The pageFunction helper availabilityFromText (app.py lines 206-212):
lowercase the page content, test the live alternation first, then the
not-available alternation. -/
def availabilityFromText (html : String) : Option AvailabilityStatus :=
  let lower := lowerChars html.data
  if regexAnyAlt liveTextPatterns lower then some .liveAvailable
  else if regexAnyAlt notAvailTextPatterns lower then some .foundNotAvailable
  else none

/-- The pageFunction helper availabilityFromMicrodata (app.py
lines 194-204): none models a missing itemprop element (the query throws
and is caught); a falsy href yields no signal; otherwise strip the
schema.org host and normalize. -/
def availabilityFromMicrodata (href : Option String) : Option AvailabilityStatus :=
  match href with
  | none => none
  | some h =>
    if h = "" then none
    else normAvailability (stripSchemaHost h)

/-- A fetched product page as the pageFunction observes it: the ld+json
script blocks in document order, the first itemprop availability href,
the raw page content, the final URL and the document title. -/
structure Page where
  jsonLd : List LdBlock
  microAvailability : Option String
  html : String
  url : String
  title : String
  deriving Repr

/-- The record classifyPDP pushes for one candidate (app.py lines 224
and 226). -/
structure PDPResult where
  status : AvailabilityStatus
  url : String
  title : Option String
  note : Option String
  deriving DecidableEq, Repr

/-- The classification body of classifyPDP on a successfully loaded page
(app.py lines 219-221): JSON-LD first, then microdata, then free text;
each later channel is consulted only when the earlier ones were empty. -/
def classifyBody (p : Page) : Option AvailabilityStatus :=
  let stat := availabilityFromJSONLD p.jsonLd
  let stat := match stat with
              | none => availabilityFromMicrodata p.microAvailability
              | s => s
  match stat with
  | none => availabilityFromText p.html
  | s => s

/-- The pageFunction helper classifyPDP (app.py lines 214-228): a failed
navigation is caught and becomes an Error record carrying the exception
text; otherwise the page classifies through the three channels, an empty
overall signal defaulting to No Results. -/
def classifyPDP (fetchPage : String → Except String Page) (pdpUrl : String) :
    PDPResult :=
  match fetchPage pdpUrl with
  | .error e => { status := .errorStatus, url := pdpUrl, title := none, note := some e }
  | .ok p =>
    { status := match classifyBody p with
                | none => .noResults
                | some s => s,
      url := p.url, title := some p.title, note := none }

/-- Definitive-status test of the candidate loop (app.py line 248). -/
def definitiveStatus (s : AvailabilityStatus) : Bool :=
  decide (s = .liveAvailable) || decide (s = .foundNotAvailable)

/-- The candidate loop of the pageFunction (app.py lines 244-249): classify
each link in order, push the result, and break once a result is
definitive; the definitive result is the last one pushed. -/
def candidateLoop (fetchPage : String → Except String Page) :
    List String → List PDPResult
  | [] => []
  | link :: rest =>
    let r := classifyPDP fetchPage link
    if definitiveStatus r.status then [r]
    else r :: candidateLoop fetchPage rest

/-- The links the candidate loop actually navigates to: the loop body runs
for a link exactly when no earlier link produced a definitive status. -/
def fetchedLinks (fetchPage : String → Except String Page) :
    List String → List String
  | [] => []
  | link :: rest =>
    let r := classifyPDP fetchPage link
    if definitiveStatus r.status then [link]
    else link :: fetchedLinks fetchPage rest

/-- Result selection of the pageFunction (app.py lines 251-259): when the
candidate loop produced nothing, classify the start URL itself; the pushed
record is results[0], the first element of the result list. -/
def pageFunctionBest (fetchPage : String → Except String Page)
    (url : String) (links : List String) : PDPResult :=
  match candidateLoop fetchPage links with
  | [] => classifyPDP fetchPage url
  | r :: _ => r

/-- First-occurrence de-duplication with an accumulator of already seen
elements; with an empty accumulator this is the effect of the JavaScript
spread of a Set built from the anchor list (app.py lines 238 and 241). -/
def dedupFirst (seen : List String) : List String → List String
  | [] => []
  | a :: rest =>
    if a ∈ seen then dedupFirst seen rest
    else a :: dedupFirst (a :: seen) rest

/-- Candidate-link collection of the pageFunction (app.py lines 234-242):
the matched anchor URLs in document order, de-duplicated keeping first
occurrences, then cut to the first maxCandidates entries by slice. -/
def collectProductLinks (anchors : List String) (maxCandidates : Nat) :
    List String :=
  (dedupFirst [] anchors).take maxCandidates

/-- A slider configuration: minimum, maximum and initial value, in the
positional order of the st.slider call. -/
structure SliderConfig where
  minValue : Nat
  maxValue : Nat
  initialValue : Nat
  deriving DecidableEq, Repr

/-- The sidebar slider for the number of PDP candidates to try
(app.py line 23). -/
def max_candidates_slider : SliderConfig :=
  { minValue := 1, maxValue := 5, initialValue := 3 }

/-- A product record of the SerpApi Home Depot response, restricted to the
fields hd_via_serpapi reads (app.py lines 103-106). -/
structure HdProduct where
  title : Option String
  link : Option String
  product_link : Option String
  url : Option String
  price : Option String
  price_str : Option String
  availability : Option String
  availability_status : Option String
  deriving Repr

/-- Python short-circuit or over optional strings: a missing value and an
empty string are both falsy. -/
def pyOr (a b : Option String) : Option String :=
  match a with
  | some s => if s = "" then b else some s
  | none => b

/-- Python truthiness of an optional string. -/
def pyTruthy (a : Option String) : Bool :=
  match a with
  | none => false
  | some s => decide (s ≠ "")

/-- Status computation of hd_via_serpapi for the first product
(app.py lines 106-116): normalize the coalesced availability field; when
that yields nothing and a price is present, assume Live; the final status
defaults to No Results. -/
def hd_status (p : HdProduct) : AvailabilityStatus :=
  let availability := pyOr p.availability p.availability_status
  let price := pyOr p.price p.price_str
  let status := norm_status availability
  let status := if status = none && pyTruthy price then
                  some AvailabilityStatus.liveAvailable
                else status
  match status with
  | none => .noResults
  | some s => s

/-- One output row, the dict shape appended by the batch loops
(app.py lines 113-122 and 350-353). -/
structure CheckResult where
  query : String
  site : String
  status : String
  productName : Option String
  url : Option String
  price : Option String
  http : Nat
  notes : String
  deriving DecidableEq, Repr

/-- The row hd_via_serpapi builds from a SerpApi response whose product
list is given (app.py lines 95-133); an empty list is the no-products
branch. -/
def hd_via_serpapi (query : String) (products : List HdProduct) : CheckResult :=
  match products with
  | [] =>
    { query := query, site := "HomeDepot", status := statusLabel .noResults,
      productName := none, url := none, price := none, http := 200,
      notes := "No products in SerpApi response" }
  | p :: _ =>
    { query := query, site := "HomeDepot",
      status := statusLabel (hd_status p),
      productName := p.title,
      url := pyOr p.link (pyOr p.product_link p.url),
      price := pyOr p.price p.price_str,
      http := 200,
      notes := "SerpApi Home Depot Search" }

/-- The error row appended when a per-identifier check raises
(app.py lines 350-353): status Error, HTTP 0, and the exception text as
the note. -/
def errorRow (site sku e : String) : CheckResult :=
  { query := sku, site := site, status := statusLabel .errorStatus,
    productName := none, url := none, price := none, http := 0, notes := e }

/-- One iteration of a batch loop body (app.py lines 347-353): a
successful check contributes its row; a raised exception is caught and
contributes the error row. -/
def checkStep (site : String) (check : String → Except String CheckResult)
    (sku : String) : CheckResult :=
  match check sku with
  | .ok row => row
  | .error e => errorRow site sku e

/-- A retailer batch loop (app.py lines 344-354): iterate the identifier
list in order, appending one row per identifier to the accumulator. -/
def batchLoop (site : String) (check : String → Except String CheckResult) :
    List String → List CheckResult → List CheckResult
  | [], rows => rows
  | sku :: rest, rows =>
    batchLoop site check rest (rows ++ [checkStep site check sku])

/-- An offer whose availability is the schema.org InStock URL. -/
def inStockOffer : Offer :=
  { availability := some "https://schema.org/InStock" }

/-- A JSON-LD block holding a single product object with that offer. -/
def inStockBlock : LdBlock :=
  some (.one { offers := some (.one inStockOffer), aggregateOffer := none,
               aggregateOffers := none })

/-- A page whose structured data says InStock while its free text says the
opposite: the precedence example of the specification. -/
def conflictPage : Page :=
  { jsonLd := [inStockBlock], microAvailability := none,
    html := "<div>Out of Stock</div>",
    url := "https://www.lowes.com/pd/widget", title := "Widget" }

/-- A page with no availability evidence at all. -/
def blankPage (u : String) : Page :=
  { jsonLd := [], microAvailability := none, html := "", url := u,
    title := "Widget" }

/-- A page whose only evidence is a free-text out-of-stock cue. -/
def oosPage (u : String) : Page :=
  { jsonLd := [], microAvailability := none, html := "Out of stock", url := u,
    title := "Widget" }

/-- A fetch world with three candidate pages: the first carries no
evidence, the second classifies definitively, the third again carries no
evidence. -/
def demoFetch : String → Except String Page := fun u =>
  if u = "c1" then .ok (blankPage "c1")
  else if u = "c2" then .ok (oosPage "c2")
  else if u = "c3" then .ok (blankPage "c3")
  else .error "navigation failed"

/-- A fetch world in which every page is evidence-free. -/
def allBlankFetch : String → Except String Page := fun u =>
  .ok (blankPage u)

/-- A fetch world in which every navigation throws. -/
def failFetch : String → Except String Page := fun _ =>
  .error "boom"

/-- A SerpApi product with a price, no availability field, and a title
whose free text carries a not-available cue. -/
def discontinuedTitled : HdProduct :=
  { title := some "Discontinued widget", link := none, product_link := none,
    url := none, price := some "19.99", price_str := none,
    availability := none, availability_status := none }

/-- Modelled from the spec: the not-available free-text cue vocabulary of
section 4.1, used only to state the claimed cue check before the price
fallback; the Home Depot code path contains no such check. -/
def specNotAvailCues : List String :=
  ["out of stock", "outofstock", "discontinued", "unavailable",
   "not sold in stores", "temporarily unavailable"]

/-- Modelled from the spec: a not-available free-text cue matches the
given text, case-insensitively. -/
def specNotAvailCueMatches (s : String) : Bool :=
  specNotAvailCues.any (fun c => containsSeq c.data (lowerChars s.data))

/-- A per-identifier check that succeeds on one identifier and raises on
every other. -/
def demoCheck : String → Except String CheckResult := fun sku =>
  if sku = "SKU1" then Except.ok (hd_via_serpapi "SKU1" [])
  else Except.error "http 500"

theorem dedupFirst_sublist (l : List String) :
    ∀ seen, (dedupFirst seen l).Sublist l := by
  induction l with
  | nil => intro seen; simp [dedupFirst]
  | cons a l ih =>
    intro seen
    by_cases h : a ∈ seen
    · simp only [dedupFirst, if_pos h]
      exact (ih seen).trans (List.sublist_cons_self a l)
    · simp only [dedupFirst, if_neg h]
      exact (ih (a :: seen)).cons₂ a

theorem mem_dedupFirst (l : List String) :
    ∀ seen x, x ∈ dedupFirst seen l ↔ (x ∈ l ∧ x ∉ seen) := by
  induction l with
  | nil => intro seen x; simp [dedupFirst]
  | cons a l ih =>
    intro seen x
    by_cases h : a ∈ seen
    · simp only [dedupFirst, if_pos h, ih, List.mem_cons]
      constructor
      · rintro ⟨hx, hs⟩; exact ⟨Or.inr hx, hs⟩
      · rintro ⟨hx | hx, hs⟩
        · exact absurd (hx ▸ h) hs
        · exact ⟨hx, hs⟩
    · simp only [dedupFirst, if_neg h, List.mem_cons, ih]
      constructor
      · rintro (rfl | ⟨hx, hs⟩)
        · exact ⟨Or.inl rfl, h⟩
        · refine ⟨Or.inr hx, fun hxm => hs (Or.inr hxm)⟩
      · rintro ⟨hx | hx, hs⟩
        · exact Or.inl hx
        · by_cases hxa : x = a
          · exact Or.inl hxa
          · exact Or.inr ⟨hx, by simp [List.mem_cons, hxa, hs]⟩

theorem dedupFirst_nodup (l : List String) :
    ∀ seen, (dedupFirst seen l).Nodup := by
  induction l with
  | nil => intro seen; simp [dedupFirst]
  | cons a l ih =>
    intro seen
    by_cases h : a ∈ seen
    · simp only [dedupFirst, if_pos h]
      exact ih seen
    · simp only [dedupFirst, if_neg h]
      refine List.nodup_cons.mpr ⟨fun hmem => ?_, ih (a :: seen)⟩
      exact ((mem_dedupFirst l (a :: seen) a).mp hmem).2 (List.mem_cons_self a seen)

theorem collectProductLinks_length_le (anchors : List String) (m : Nat) :
    (collectProductLinks anchors m).length ≤ m := by
  simp [collectProductLinks, List.length_take]

theorem fetchedLinks_length_le (fetchPage : String → Except String Page)
    (links : List String) :
    (fetchedLinks fetchPage links).length ≤ links.length := by
  induction links with
  | nil => simp [fetchedLinks]
  | cons l rest ih =>
    simp only [fetchedLinks]
    by_cases h : definitiveStatus (classifyPDP fetchPage l).status
    · simp [h]
    · simp only [if_neg h, List.length_cons]; omega

/-- Claim C1: the classifier consults structured data first, then
microdata, then free text, the first non-empty signal winning; in
particular a page whose embedded offer availability is the schema.org
InStock URL classifies Live / Available even when the literal text Out of
Stock appears elsewhere in the body. -/
theorem classify_precedence_structured_first (p : Page) :
    (∀ s, availabilityFromJSONLD p.jsonLd = some s → classifyBody p = some s)
  ∧ (availabilityFromJSONLD p.jsonLd = none →
      ∀ s, availabilityFromMicrodata p.microAvailability = some s →
      classifyBody p = some s)
  ∧ (availabilityFromJSONLD p.jsonLd = none →
      availabilityFromMicrodata p.microAvailability = none →
      classifyBody p = availabilityFromText p.html)
  ∧ availabilityFromJSONLD conflictPage.jsonLd = some .liveAvailable
  ∧ availabilityFromText conflictPage.html = some .foundNotAvailable
  ∧ classifyBody conflictPage = some .liveAvailable := by
  refine ⟨?_, ?_, ?_, by decide, by decide, by decide⟩
  · intro s hs
    simp [classifyBody, hs]
  · intro h0 s hs
    simp [classifyBody, h0, hs]
  · intro h0 h1
    simp [classifyBody, h0, h1]

/-- Witness for claim C1 at the conflicting concrete page. -/
theorem classify_precedence_structured_first_witness :
    classifyBody conflictPage = some AvailabilityStatus.liveAvailable :=
  (classify_precedence_structured_first conflictPage).1
    AvailabilityStatus.liveAvailable (by decide)

/-- Claim C2 counterexample: a product record with a price, no
availability field, and the cue word Discontinued in its free text is
classified Live / Available by the code; no not-available cue check
precedes the price fallback. -/
theorem hd_price_fallback_skips_cue_check :
    norm_status (pyOr discontinuedTitled.availability
      discontinuedTitled.availability_status) = none
  ∧ pyTruthy (pyOr discontinuedTitled.price discontinuedTitled.price_str) = true
  ∧ specNotAvailCueMatches ((discontinuedTitled.title).getD "") = true
  ∧ hd_status discontinuedTitled = .liveAvailable
  ∧ hd_status discontinuedTitled ≠ .foundNotAvailable := by
  refine ⟨by decide, by decide, by decide, by decide, by decide⟩

/-- Claim C2 (amended): when the availability field yields no recognized
signal and a price is present, the Home Depot check returns
Live / Available unconditionally; only a recognized value in the
availability field itself can preempt the price fallback. -/
theorem hd_price_fallback_unconditional (p : HdProduct)
    (h1 : norm_status (pyOr p.availability p.availability_status) = none)
    (h2 : pyTruthy (pyOr p.price p.price_str) = true) :
    hd_status p = .liveAvailable := by
  simp [hd_status, h1, h2]

/-- Witness for the amended claim C2 at the concrete priced product. -/
theorem hd_price_fallback_unconditional_witness :
    hd_status discontinuedTitled = AvailabilityStatus.liveAvailable :=
  hd_price_fallback_unconditional discontinuedTitled (by decide) (by decide)

/-- Claim C3 divergence: the pageFunction normalizer maps the value
unavailable to Live / Available, because the live alternative available
matches it as a substring before the not-available pattern is tried, even
though unavailable is listed among the not-available alternatives; the
Python helper norm_status maps the same value to Found but Not
Available. -/
theorem normAvailability_unavailable_maps_live :
    offerSignal { availability := some "Unavailable" } = some .liveAvailable
  ∧ availabilityFromMicrodata (some "https://schema.org/unavailable") =
      some .liveAvailable
  ∧ normAvailability "unavailable" = some .liveAvailable
  ∧ "unavailable" ∈ notAvailRegexAlts
  ∧ norm_status (some "Unavailable") = some .foundNotAvailable := by
  refine ⟨by decide, by decide, by decide, by decide, by decide⟩

/-- Claim C4: candidate-link collection keeps document order, keeps only
the first occurrence of each distinct URL, returns at most maxCandidates
links, and returns the empty sequence when there are no matches; the
concrete conjunct shows a duplicated href kept once, at its first
position, under the bound. -/
theorem collectProductLinks_spec (anchors : List String) (m : Nat) :
    (collectProductLinks anchors m).Nodup
  ∧ (collectProductLinks anchors m).Sublist anchors
  ∧ (collectProductLinks anchors m).length ≤ m
  ∧ (∀ x, x ∈ dedupFirst [] anchors ↔ x ∈ anchors)
  ∧ collectProductLinks [] m = []
  ∧ collectProductLinks ["u1", "u2", "u1", "u3"] 2 = ["u1", "u2"] := by
  refine ⟨?_, ?_, collectProductLinks_length_le anchors m, ?_,
    by simp [collectProductLinks, dedupFirst], by decide⟩
  · exact List.Nodup.sublist (List.take_sublist _ _) (dedupFirst_nodup anchors [])
  · exact (List.take_sublist _ _).trans (dedupFirst_sublist anchors [])
  · intro x
    simpa using mem_dedupFirst anchors [] x

/-- Witness for claim C4 at the concrete duplicated anchor list. -/
theorem collectProductLinks_spec_witness :
    collectProductLinks ["u1", "u2", "u1", "u3"] 2 = ["u1", "u2"] :=
  (collectProductLinks_spec ["u1", "u2", "u1", "u3"] 2).2.2.2.2.2

/-- Claim C5 evidence: with three candidates whose second classifies
definitively, the loop never fetches the third, but the pushed record is
results[0], the first candidate's non-definitive result, not the
definitive second result. -/
theorem candidate_loop_returns_first_not_definitive :
    fetchedLinks demoFetch ["c1", "c2", "c3"] = ["c1", "c2"]
  ∧ (classifyPDP demoFetch "c1").status = .noResults
  ∧ (classifyPDP demoFetch "c2").status = .foundNotAvailable
  ∧ pageFunctionBest demoFetch "search" ["c1", "c2", "c3"] =
      classifyPDP demoFetch "c1"
  ∧ pageFunctionBest demoFetch "search" ["c1", "c2", "c3"] ≠
      classifyPDP demoFetch "c2" := by
  refine ⟨by decide, by decide, by decide, by decide, by decide⟩

/-- Claim C6: when no fetched candidate classifies definitively, the
pushed record is the first fetched candidate's result, not the last. -/
theorem resolver_returns_first_fetched
    (fetchPage : String → Except String Page) (url l : String)
    (rest : List String)
    (h : ∀ link ∈ l :: rest,
      definitiveStatus (classifyPDP fetchPage link).status = false) :
    pageFunctionBest fetchPage url (l :: rest) = classifyPDP fetchPage l := by
  have hl := h l (List.mem_cons_self l rest)
  simp [pageFunctionBest, candidateLoop, hl]

/-- Witness for claim C6: two candidates, both classifying No Results. -/
theorem resolver_returns_first_fetched_witness :
    pageFunctionBest allBlankFetch "search" ["c1", "c2"] =
      classifyPDP allBlankFetch "c1" :=
  resolver_returns_first_fetched allBlankFetch "search" "c1" ["c2"] (by decide)

/-- Claim C7: the batch loop yields exactly one row per identifier, in
input order; a raised check is caught and becomes an Error row carrying
the exception text, and processing continues with the remaining
identifiers. -/
theorem batch_one_row_per_identifier (site : String)
    (check : String → Except String CheckResult) (skus : List String) :
    batchLoop site check skus [] = skus.map (checkStep site check)
  ∧ (batchLoop site check skus []).length = skus.length
  ∧ (∀ sku e, check sku = Except.error e →
      checkStep site check sku = errorRow site sku e) := by
  have key : ∀ l rows,
      batchLoop site check l rows = rows ++ l.map (checkStep site check) := by
    intro l
    induction l with
    | nil => intro rows; simp [batchLoop]
    | cons a t ih => intro rows; simp [batchLoop, ih]
  refine ⟨(key skus []).trans (List.nil_append _), ?_, ?_⟩
  · rw [key skus []]
    simp
  · intro sku e h
    simp [checkStep, h]

/-- Witness for claim C7: a concrete failing check becomes the Error row. -/
theorem batch_one_row_per_identifier_witness :
    checkStep "HomeDepot" demoCheck "SKU2" = errorRow "HomeDepot" "SKU2" "http 500" :=
  (batch_one_row_per_identifier "HomeDepot" demoCheck ["SKU1", "SKU2"]).2.2
    "SKU2" "http 500" (by rfl)

/-- Claim C8 counterexample: the slider maximum is 5, not 8, and its
default is 3, not 5. -/
theorem slider_bounds_counterexample :
    max_candidates_slider.maxValue ≠ 8 ∧ max_candidates_slider.initialValue ≠ 5 := by
  decide

/-- Claim C8 (amended): the maxCandidates slider ranges from 1 to 5 with
default 3, and at most maxCandidates candidate links are ever tried by
the resolution loop. -/
theorem slider_bounds_amended (fetchPage : String → Except String Page)
    (anchors : List String) (m : Nat) :
    max_candidates_slider.minValue = 1
  ∧ max_candidates_slider.maxValue = 5
  ∧ max_candidates_slider.initialValue = 3
  ∧ (fetchedLinks fetchPage (collectProductLinks anchors m)).length ≤ m := by
  refine ⟨rfl, rfl, rfl, ?_⟩
  exact (fetchedLinks_length_le fetchPage _).trans
    (collectProductLinks_length_le anchors m)

/-- Claim C9: classification is a pure function of the observed page
content: two runs over identical content give identical statuses. -/
theorem classify_deterministic (p q : Page) (h : p = q) :
    classifyBody p = classifyBody q
  ∧ classifyPDP (fun _ => Except.ok p) "u" = classifyPDP (fun _ => Except.ok q) "u" := by
  subst h
  exact ⟨rfl, rfl⟩

/-- Witness for claim C9 at the concrete conflicting page. -/
theorem classify_deterministic_witness :
    classifyBody conflictPage = classifyBody conflictPage :=
  (classify_deterministic conflictPage conflictPage rfl).1

/-- Claim C10: a throwing fetch yields an Error record carrying the
exception text; Error is not definitive, so the loop records it and
continues with the next candidate. -/
theorem error_not_definitive
    (fetchPage : String → Except String Page) (l : String)
    (rest : List String) (e : String)
    (h : fetchPage l = Except.error e) :
    classifyPDP fetchPage l =
      { status := .errorStatus, url := l, title := none, note := some e }
  ∧ definitiveStatus .errorStatus = false
  ∧ candidateLoop fetchPage (l :: rest) =
      classifyPDP fetchPage l :: candidateLoop fetchPage rest
  ∧ fetchedLinks fetchPage (l :: rest) = l :: fetchedLinks fetchPage rest := by
  have h1 : classifyPDP fetchPage l =
      { status := .errorStatus, url := l, title := none, note := some e } := by
    simp [classifyPDP, h]
  refine ⟨h1, rfl, ?_, ?_⟩
  · simp [candidateLoop, h1, definitiveStatus]
  · simp [fetchedLinks, h1, definitiveStatus]

/-- Witness for claim C10: with a failing fetch world the loop continues
past the first candidate. -/
theorem error_not_definitive_witness :
    candidateLoop failFetch ["c1", "c2"] =
      classifyPDP failFetch "c1" :: candidateLoop failFetch ["c2"] :=
  (error_not_definitive failFetch "c1" ["c2"] "boom" rfl).2.2.1
